import Mathlib

/-
Verification development for the qonsole terminal widget
(src/include/qonsole/qonsole.hpp).

The widget state, its selection model, the text-extraction routine, the
per-cell render resolution, the resize controller and the threaded reader
loop are embedded as executable Lean definitions, translated line by line
from the C++ source.  Machine integers are modelled explicitly:
`uint` members hold their value as a `Nat` (in `[0, 2^32)`), and every
conversion to a signed 32-bit `int` member goes through `toInt32` (the
C++ two's-complement conversion), with `u32` the inverse conversion used
where C++ compares an `int` against an `unsigned` operand.
-/

/-- Model of `QColor`: an rgba quadruple. -/
structure QColor where
  r : Nat
  g : Nat
  b : Nat
  a : Nat
deriving DecidableEq, Repr

/-- `struct q_selection` (qonsole.hpp:119-127); the `uint` fields hold the
unsigned value as a `Nat`. -/
structure q_selection where
  start_line : Nat
  start_column : Nat
  end_line : Nat
  end_column : Nat
  active : Bool
deriving DecidableEq, Repr

/-- `struct q_cursor_pos` (qonsole.hpp:149-152). -/
structure q_cursor_pos where
  x : Nat
  y : Nat
deriving DecidableEq, Repr

/-- `enum q_cursor_style` (qonsole.hpp:154-159). -/
inductive q_cursor_style where
  | BLOCK
  | UNDERLINE
  | IBEAM
  | NONE
deriving DecidableEq, Repr

/-- C++ conversion of an `unsigned int` value to `int`
(two's complement wrap-around). -/
def toInt32 (n : Nat) : Int :=
  if n % 4294967296 < 2147483648 then ((n % 4294967296 : Nat) : Int)
  else ((n % 4294967296 : Nat) : Int) - 4294967296

/-- C++ conversion of an `int` value to `unsigned int`, as performed by the
usual arithmetic conversions when an `int` meets an `unsigned` operand. -/
def u32 (i : Int) : Nat :=
  (i % 4294967296).toNat

/-- The widget state of `QonsoleWidget` (qonsole.hpp:341-380).  The tsm
engine handles `m_screen` / `m_vte` are opaque: only their null-ness is
observable in the embedded operations, so they are `Option Unit`.
`reader` models the attached `QonsoleReader*` by its file descriptor
(`none` when no reader is attached). -/
structure QonsoleWidget where
  m_char_width : Int
  m_char_height : Int
  m_cols : Int
  m_lines : Int
  m_use_bold : Bool
  m_is_selecting : Bool
  m_draw_empty_cells : Bool
  m_default_fg : QColor
  m_default_bg : QColor
  m_selection_bg : QColor
  m_palette : Fin 16 → QColor
  m_qcstyle : q_cursor_style
  m_cursor_pos : q_cursor_pos
  m_selection : q_selection
  m_screen : Option Unit
  m_vte : Option Unit
  reader : Option Int

/-- The Dracula default palette of `load_default_palette`
(qonsole.hpp:619-641), as a 16-entry list. -/
def default_palette_list : List QColor :=
  [⟨0x21, 0x22, 0x2C, 255⟩,
   ⟨0xFF, 0x55, 0x55, 255⟩,
   ⟨0x50, 0xFA, 0x7B, 255⟩,
   ⟨0xF1, 0xFA, 0x8C, 255⟩,
   ⟨0xBD, 0x93, 0xF9, 255⟩,
   ⟨0xFF, 0x79, 0xC6, 255⟩,
   ⟨0x8B, 0xE9, 0xFD, 255⟩,
   ⟨0xF8, 0xF8, 0xF2, 255⟩,
   ⟨0x62, 0x72, 0xA4, 255⟩,
   ⟨0xFF, 0x6E, 0x6E, 255⟩,
   ⟨0x69, 0xFF, 0x94, 255⟩,
   ⟨0xFF, 0xFF, 0xA5, 255⟩,
   ⟨0xD6, 0xAC, 0xFF, 255⟩,
   ⟨0xFF, 0x92, 0xDF, 255⟩,
   ⟨0xA4, 0xFF, 0xFF, 255⟩,
   ⟨0xFF, 0xFF, 0xFF, 255⟩]

/-- A widget right after the member initializers plus
`load_default_palette` have run (qonsole.hpp:349-375, 619-641, 665-696):
`m_cols = 80`, `m_lines = 24`, `m_is_selecting = false`, the curious
member-initializer selection `{0, 2, 0, 9, true}` (qonsole.hpp:375),
`m_default_fg = m_palette[7]`, `m_default_bg = m_palette[0]`, selection
background `QColor(255,255,255,40)`.  The character metrics come from the
font (external), so they are parameters, as are the engine handles and the
reader. -/
def initial_widget (cw ch : Int) (screen vte : Option Unit) (rd : Option Int) :
    QonsoleWidget where
  m_char_width := cw
  m_char_height := ch
  m_cols := 80
  m_lines := 24
  m_use_bold := false
  m_is_selecting := false
  m_draw_empty_cells := false
  m_default_fg := default_palette_list.getD 7 ⟨0, 0, 0, 255⟩
  m_default_bg := default_palette_list.getD 0 ⟨0, 0, 0, 255⟩
  m_selection_bg := ⟨255, 255, 255, 40⟩
  m_palette := fun i => default_palette_list.getD i.val ⟨0, 0, 0, 255⟩
  m_qcstyle := q_cursor_style.BLOCK
  m_cursor_pos := ⟨0, 0⟩
  m_selection := ⟨0, 2, 0, 9, true⟩
  m_screen := screen
  m_vte := vte
  reader := rd

/-- A concrete widget used by witnesses: 8x16 character cells, engine
constructed, no reader. -/
def w0 : QonsoleWidget := initial_widget 8 16 (some ()) (some ()) none

/-- `px2pos` (qonsole.hpp:713-716): integer division of the pixel point by
the character metrics, the quotient then stored into the `uint` out
parameters. -/
def px2pos (w : QonsoleWidget) (x y : Int) : Nat × Nat :=
  (u32 (x / w.m_char_width), u32 (y / w.m_char_height))

/-- `reset_selection` (qonsole.hpp:725-728). -/
def reset_selection (w : QonsoleWidget) : QonsoleWidget :=
  { w with m_is_selecting := false, m_selection := ⟨0, 0, 0, 0, false⟩ }

/-- `mousePressEvent` (qonsole.hpp:416-422): reset the selection, set
`active`, store the pressed cell into the start endpoint.  The end
endpoint keeps the `(0,0)` written by `reset_selection`. -/
def mousePressEvent (x y : Int) (w : QonsoleWidget) : QonsoleWidget :=
  let w1 := reset_selection w
  let p := px2pos w1 x y
  { w1 with m_selection :=
      { w1.m_selection with active := true, start_column := p.1, start_line := p.2 } }

/-- `mouseMoveEvent` (qonsole.hpp:430-437): while the selection is active,
raise `m_is_selecting` and move the end endpoint to the hovered cell. -/
def mouseMoveEvent (x y : Int) (w : QonsoleWidget) : QonsoleWidget :=
  if w.m_selection.active then
    let p := px2pos w x y
    { w with m_is_selecting := true,
             m_selection :=
               { w.m_selection with end_column := p.1, end_line := p.2 } }
  else w

/-- `mouseReleaseEvent` (qonsole.hpp:424-428): clears only `active`;
`m_is_selecting` is left untouched. -/
def mouseReleaseEvent (w : QonsoleWidget) : QonsoleWidget :=
  { w with m_selection := { w.m_selection with active := false } }

/-- The normalization step of `is_selected` (qonsole.hpp:502-506): swap the
two endpoints (held in `int` locals) when `(sl,sc)` is lexicographically
greater than `(el,ec)`. -/
def normalize4 (sl sc el ec : Int) : Int × Int × Int × Int :=
  if sl > el ∨ (sl = el ∧ sc > ec) then (el, ec, sl, sc) else (sl, sc, el, ec)

/-- The range check of `is_selected` (qonsole.hpp:497-518) on explicit
endpoint fields.  The `uint` fields are first converted to the `int`
locals `sl, sc, el, ec`; after normalization, each comparison against the
`uint` parameters `col` / `line` converts the `int` back to `unsigned`
(usual arithmetic conversions), hence the `u32`. -/
def sel_contains (sl sc el ec : Nat) (col line : Nat) : Bool :=
  match normalize4 (toInt32 sl) (toInt32 sc) (toInt32 el) (toInt32 ec) with
  | (nsl, nsc, nel, nec) =>
    if line < u32 nsl ∨ u32 nel < line then false
    else if line = u32 nsl ∧ col < u32 nsc then false
    else if line = u32 nel ∧ u32 nec < col then false
    else true

/-- `is_selected` (qonsole.hpp:494-519): gated on `m_is_selecting` (not on
`m_selection.active`), then the normalized inclusive range check. -/
def is_selected (w : QonsoleWidget) (col line : Nat) : Bool :=
  if !w.m_is_selecting then false
  else sel_contains w.m_selection.start_line w.m_selection.start_column
        w.m_selection.end_line w.m_selection.end_column col line

/-- `QString::split('\n')` on a string modelled as its character list:
splitting the empty string yields one empty part, exactly as Qt's
`KeepEmptyParts` default. -/
def split_nl : List Char → List (List Char)
  | [] => [[]]
  | c :: rest =>
    match split_nl rest with
    | [] => [[]]
    | r :: rs => if c = '\n' then [] :: r :: rs else (c :: r) :: rs

/-- `get_selected_text` (qonsole.hpp:836-876), with the screen dump passed
in (the method obtains it from `dump_screen()`, whose body is empty in the
source).  `QString::mid(p, n)` is `drop p |> take n`, `mid(p)` is `drop p`,
`left(n)` is `take n`, and the identifier `sel` of the source resolves to
the member `m_selection` (the method reads both names for the same
selection). -/
def get_selected_text (sel : q_selection) (text : List Char) : List Char :=
  if !sel.active then []
  else
    let lines := split_nl text
    if sel.start_line ≥ lines.length ∨ sel.end_line ≥ lines.length then []
    else if sel.start_line = sel.end_line then
      let line := lines.getD sel.start_line []
      let s := min sel.start_column line.length
      let e := min sel.end_column line.length
      if e < s then (line.drop e).take (s - e) else (line.drop s).take (e - s)
    else
      let first := lines.getD sel.start_line []
      let firstPart := first.drop (min sel.start_column first.length)
      let middle := (List.range' (sel.start_line + 1)
          (sel.end_line - (sel.start_line + 1))).map (fun i => lines.getD i [])
      let last := lines.getD sel.end_line []
      let lastPart := last.take (min sel.end_column last.length)
      List.intercalate ['\n'] ((firstPart :: middle) ++ [lastPart])

/-- Modelled from the spec (4.3, `extract(text_dump)`): single-row ranges
slice columns, swapping first if the end column is below the start column;
multi-row ranges take the partial first row from the start column, the
interior rows verbatim and the prefix of the last row up to the end
column; every column index is clamped to its row's length; rows are the
newline-split dump.  Written from the spec's words, to be compared with
`get_selected_text` above. -/
def extract_spec (sel : q_selection) (text : List Char) : List Char :=
  let lines := split_nl text
  if sel.start_line = sel.end_line then
    let line := lines.getD sel.start_line []
    let s0 := if sel.end_column < sel.start_column then sel.end_column else sel.start_column
    let e0 := if sel.end_column < sel.start_column then sel.start_column else sel.end_column
    let s := min s0 line.length
    let e := min e0 line.length
    (line.drop s).take (e - s)
  else
    let first := lines.getD sel.start_line []
    let last := lines.getD sel.end_line []
    List.intercalate ['\n']
      ((first.drop (min sel.start_column first.length)) ::
        ((List.range' (sel.start_line + 1)
            (sel.end_line - (sel.start_line + 1))).map (fun i => lines.getD i []) ++
          [last.take (min sel.end_column last.length)]))

/-- The attribute bundle `tsm_screen_attr` handed to the draw callback;
`fccode` / `bccode` are (small) signed integers, `-1` meaning default. -/
structure tsm_screen_attr where
  fccode : Int
  bccode : Int
  bold : Bool
  underline : Bool
  inverse : Bool
deriving DecidableEq, Repr

/-- Draw primitives issued on the painter during a repaint. -/
inductive PaintOp where
  | fill_background (c : QColor)
  | fill_rect (x y wpx hpx : Int) (c : QColor)
  | set_font
  | set_cell_font (bold underline : Bool)
  | draw_text (x y : Int) (text : List Char) (c : QColor)
deriving DecidableEq, Repr

/-- Calls made into the tsm engine. -/
inductive EngineCall where
  | vte_input (data : List Nat)
  | get_cursor
  | screen_resize (cols lines : Int)
  | screen_draw
deriving DecidableEq, Repr

/-- Calls made into the OS transport layer. -/
inductive OsCall where
  | ioctl_winsize (fd : Int) (ws_col ws_row : Nat)
deriving DecidableEq, Repr

/-- The foreground lookup of `draw_callback` (qonsole.hpp:557-562): the
palette is consulted only when `0 <= fccode < 16`, otherwise the
configured default foreground stands. -/
def resolve_fg (w : QonsoleWidget) (code : Int) : QColor :=
  if h : 0 ≤ code ∧ code < 16 then w.m_palette ⟨code.toNat, by omega⟩
  else w.m_default_fg

/-- The background lookup of `draw_callback` (qonsole.hpp:558-565):
analogous to `resolve_fg`, falling back to the default background. -/
def resolve_bg (w : QonsoleWidget) (code : Int) : QColor :=
  if h : 0 ≤ code ∧ code < 16 then w.m_palette ⟨code.toNat, by omega⟩
  else w.m_default_bg

/-- `draw_callback` (qonsole.hpp:521-600) for one cell: the selection
query, the empty-cell skip, palette resolution, the inverse swap, the
selection background override, the cell rectangle fill and the glyph
draw with the bold/underline font variants. -/
def draw_callback (w : QonsoleWidget) (ch : List Char) (width : Nat)
    (posx posy : Nat) (attr : tsm_screen_attr) : List PaintOp :=
  let iss := is_selected w posx posy
  if ch.length = 0 ∧ !iss ∧ !w.m_draw_empty_cells then []
  else
    let x := (posx : Int) * w.m_char_width
    let y := (posy : Int) * w.m_char_height
    let fg1 := resolve_fg w attr.fccode
    let bg1 := resolve_bg w attr.bccode
    let p := if attr.inverse then (bg1, fg1) else (fg1, bg1)
    let bg2 := if iss then w.m_selection_bg else p.2
    let text := if ch.length > 0 then ch else [' ']
    [PaintOp.fill_rect x y (w.m_char_width * (width : Int)) w.m_char_height bg2,
     PaintOp.set_cell_font (w.m_use_bold && attr.bold) attr.underline,
     PaintOp.draw_text x (y + w.m_char_height - 3) text p.1]

/-- `draw_cursor` (qonsole.hpp:459-488): nothing for style `NONE`, nothing
for `IBEAM`/`UNDERLINE` without focus, otherwise one filled rectangle in
the default foreground color. -/
def draw_cursor (w : QonsoleWidget) (hasFocus : Bool) : List PaintOp :=
  if w.m_qcstyle = q_cursor_style.NONE then []
  else if (w.m_qcstyle = q_cursor_style.IBEAM ∨
           w.m_qcstyle = q_cursor_style.UNDERLINE) ∧ !hasFocus then []
  else
    let x := (w.m_cursor_pos.x : Int) * w.m_char_width
    let y := (w.m_cursor_pos.y : Int) * w.m_char_height
    if w.m_qcstyle = q_cursor_style.BLOCK then
      [PaintOp.fill_rect x y w.m_char_width w.m_char_height w.m_default_fg]
    else if w.m_qcstyle = q_cursor_style.UNDERLINE then
      [PaintOp.fill_rect x (y + w.m_char_height - 2) w.m_char_width 2 w.m_default_fg]
    else if w.m_qcstyle = q_cursor_style.IBEAM then
      [PaintOp.fill_rect (x + w.m_char_width / 2 - 1) y 2 w.m_char_height w.m_default_fg]
    else []

/-- `paintEvent` (qonsole.hpp:385-402): the full-background fill of
`draw_screen` always happens; with a null `m_screen` the method returns
right after it, skipping the cursor, the font setup and the per-cell
`tsm_screen_draw` pass.  Returns the painter trace and the engine calls. -/
def paintEvent (w : QonsoleWidget) (hasFocus : Bool) :
    List PaintOp × List EngineCall :=
  let bg := [PaintOp.fill_background w.m_default_bg]
  match w.m_screen with
  | none => (bg, [])
  | some _ =>
    (bg ++ draw_cursor w hasFocus ++ [PaintOp.set_font], [EngineCall.screen_draw])

/-- `on_data_ready` (qonsole.hpp:611-617): with a null `m_vte` nothing
happens; otherwise the chunk is fed to the interpreter and
`update_cursor_pos` re-reads the cursor from the engine (the engine's
reported position is the `engine_cursor` oracle parameter). -/
def on_data_ready (data : List Nat) (engine_cursor : q_cursor_pos)
    (w : QonsoleWidget) : QonsoleWidget × List EngineCall :=
  match w.m_vte with
  | none => (w, [])
  | some _ =>
    ({ w with m_cursor_pos := engine_cursor },
     [EngineCall.vte_input data, EngineCall.get_cursor])

/-- `resize_vt` (qonsole.hpp:643-662): clamp both stored dimensions to at
least 1, push the size into the engine when `m_screen` is non-null, and
for an attached reader with a non-negative file descriptor issue the
`TIOCSWINSZ` ioctl (whose `winsize` fields are `unsigned short`). -/
def resize_vt (w : QonsoleWidget) :
    QonsoleWidget × List EngineCall × List OsCall :=
  let cols := if w.m_cols < 1 then 1 else w.m_cols
  let lines := if w.m_lines < 1 then 1 else w.m_lines
  let w1 := { w with m_cols := cols, m_lines := lines }
  let eng := match w.m_screen with
    | some _ => [EngineCall.screen_resize cols lines]
    | none => []
  let os := match w.reader with
    | some fd =>
      if fd ≥ 0 then [OsCall.ioctl_winsize fd (cols % 65536).toNat (lines % 65536).toNat]
      else []
    | none => []
  (w1, eng, os)

/-- `set_vt_size` (qonsole.hpp:757-762): the `uint` parameters are stored
into the `int` members (two's-complement conversion) and `resize_vt`
runs. -/
def set_vt_size (cols lines : Nat) (w : QonsoleWidget) :
    QonsoleWidget × List EngineCall × List OsCall :=
  resize_vt { w with m_cols := toInt32 cols, m_lines := toInt32 lines }

/-- `get_terminal_size` (qonsole.hpp:826-829). -/
def get_terminal_size (w : QonsoleWidget) : Int × Int :=
  (w.m_cols, w.m_lines)

/-- The possible states of the engine-handle members `m_screen` / `m_vte`
after the constructor (qonsole.hpp:665-696): never assigned
(indeterminate, since the members carry no initializer), explicitly set
to `nullptr`, or holding a live engine. -/
inductive MemberState where
  | uninit
  | null
  | engine
deriving DecidableEq, Repr

/-- The constructor's treatment of the engine members
(qonsole.hpp:675-687), as a function of the return values of
`tsm_screen_new` and `tsm_vte_new`: a negative `tsm_screen_new` returns
early with neither member ever assigned; a negative `tsm_vte_new` unrefs
the screen, sets `m_screen = nullptr` and returns with `m_vte` never
assigned; otherwise both hold engines. -/
def ctor_engine_members (screen_ret vte_ret : Int) : MemberState × MemberState :=
  if screen_ret < 0 then (MemberState.uninit, MemberState.uninit)
  else if vte_ret < 0 then (MemberState.null, MemberState.uninit)
  else (MemberState.engine, MemberState.engine)

/-- One result of the blocking `read` in the Unix reader loop
(qonsole.hpp:263): a positive byte count with its chunk, a zero count
(end of file), or a negative count (error). -/
inductive ReadResult where
  | chunk (data : List Nat)
  | eof
  | err
deriving DecidableEq, Repr

/-- The Unix read loop of `QonsoleReader::run` (qonsole.hpp:260-277) over
the sequence of results the descriptor will yield: each positive read
emits its chunk via `data_ready`; the first zero or negative read breaks
the loop; nothing after it is ever read. -/
def unix_read_loop : List ReadResult → List (List Nat)
  | [] => []
  | ReadResult.chunk d :: rest => d :: unix_read_loop rest
  | ReadResult.eof :: _ => []
  | ReadResult.err :: _ => []

/-- `QonsoleReader::run` on the Unix path (qonsole.hpp:248-279, 332):
the already-running guard returns immediately; otherwise the read loop
runs and `__running` is assigned `false` afterwards.  Returns the final
flag and the emitted chunks. -/
def reader_run_unix (running : Bool) (reads : List ReadResult) :
    Bool × List (List Nat) :=
  if running then (running, [])
  else (false, unix_read_loop reads)

/-- One result of `recv` on the Windows socket path
(qonsole.hpp:285-304). -/
inductive WinSockRead where
  | chunk (data : List Nat)
  | closed
  | wouldblock
  | errcode (e : Nat)
deriving DecidableEq, Repr

/-- One result of `ReadFile` on the Windows handle path
(qonsole.hpp:308-326). -/
inductive WinFileRead where
  | ok (data : List Nat)
  | brokenPipe
  | handleEof
  | errcode (e : Nat)
deriving DecidableEq, Repr

/-- The Windows socket loop `while (__running) { ... }`
(qonsole.hpp:285-304): the flag is tested before every iteration and never
written inside the body; `WSAEWOULDBLOCK` sleeps and retries, a closed
socket or any other error breaks. -/
def win_socket_loop (running : Bool) : List WinSockRead → List (List Nat)
  | [] => []
  | r :: rest =>
    if !running then []
    else
      match r with
      | WinSockRead.chunk d => d :: win_socket_loop running rest
      | WinSockRead.closed => []
      | WinSockRead.wouldblock => win_socket_loop running rest
      | WinSockRead.errcode _ => []

/-- The Windows file-handle loop `while (__running) { ... }`
(qonsole.hpp:308-326): a successful `ReadFile` emits only when the count
is positive (a zero count just loops), `ERROR_BROKEN_PIPE` /
`ERROR_HANDLE_EOF` and any other error break. -/
def win_handle_loop (running : Bool) : List WinFileRead → List (List Nat)
  | [] => []
  | r :: rest =>
    if !running then []
    else
      match r with
      | WinFileRead.ok d =>
        (if d.length > 0 then [d] else []) ++ win_handle_loop running rest
      | WinFileRead.brokenPipe => []
      | WinFileRead.handleEof => []
      | WinFileRead.errcode _ => []

/-- `QonsoleReader::run` on the Windows path (qonsole.hpp:248-254,
280-333): the already-running guard, then the socket or handle loop with
the current `__running` value, then `__running = false`. -/
def reader_run_win (running : Bool) (isSocket : Bool)
    (sreads : List WinSockRead) (freads : List WinFileRead) :
    Bool × List (List Nat) :=
  if running then (running, [])
  else (false, if isSocket then win_socket_loop running sreads
               else win_handle_loop running freads)

/-- The initializer of `__running` (qonsole.hpp:209). -/
def reader_init_running : Bool := false

/-- The net effect of one `run()` invocation on the `__running` flag: the
guard path leaves it unchanged, every completed path ends with
`__running = false` (qonsole.hpp:249-252, 332).  No statement in the
class ever assigns `true`. -/
def run_flag_after (running : Bool) : Bool :=
  if running then running else false

/-- The `__running` flag after `n` invocations of `run()`, starting from
the member initializer. -/
def runs_flag : Nat → Bool
  | 0 => reader_init_running
  | n + 1 => run_flag_after (runs_flag n)

/-- `QonsoleReader::is_running` (qonsole.hpp:242-244). -/
def is_running (running : Bool) : Bool := running

/-- Composing a press with a move yields the expected record: start at the
pressed cell, end at the hovered cell, `active` and `m_is_selecting`
raised. -/
theorem press_then_move (w : QonsoleWidget) (px py qx qy : Int) :
    mouseMoveEvent qx qy (mousePressEvent px py w) =
      { w with m_is_selecting := true,
               m_selection := ⟨(px2pos w px py).2, (px2pos w px py).1,
                               (px2pos w qx qy).2, (px2pos w qx qy).1, true⟩ } :=
  rfl

/-- The endpoint normalization is symmetric in the two endpoints. -/
theorem normalize4_comm (a b c d : Int) :
    normalize4 a b c d = normalize4 c d a b := by
  unfold normalize4
  by_cases h1 : a > c ∨ (a = c ∧ b > d)
  · by_cases h2 : c > a ∨ (c = a ∧ d > b)
    · exfalso; omega
    · rw [if_pos h1, if_neg h2]
  · by_cases h2 : c > a ∨ (c = a ∧ d > b)
    · rw [if_neg h1, if_pos h2]
    · rw [if_neg h1, if_neg h2]
      obtain ⟨h3, h4⟩ : a = c ∧ b = d := by omega
      rw [h3, h4]

/-- The normalized range check is symmetric in the two endpoints. -/
theorem sel_contains_comm (a b c d col line : Nat) :
    sel_contains a b c d col line = sel_contains c d a b col line := by
  unfold sel_contains
  rw [normalize4_comm (toInt32 a) (toInt32 b) (toInt32 c) (toInt32 d)]

/-- A `while (__running)` socket loop entered with the flag down performs
zero iterations. -/
theorem win_socket_loop_not_running (l : List WinSockRead) :
    win_socket_loop false l = [] := by
  cases l <;> rfl

/-- A `while (__running)` file-handle loop entered with the flag down
performs zero iterations. -/
theorem win_handle_loop_not_running (l : List WinFileRead) :
    win_handle_loop false l = [] := by
  cases l <;> rfl

/-- The Unix read loop ignores everything that follows the first
end-of-file or error result. -/
theorem unix_read_loop_stops (pre post : List ReadResult) (r : ReadResult)
    (hr : r = ReadResult.eof ∨ r = ReadResult.err) :
    unix_read_loop (pre ++ r :: post) = unix_read_loop (pre ++ [r]) := by
  induction pre with
  | nil => rcases hr with h | h <;> subst h <;> rfl
  | cons a t ih => cases a <;> simp [unix_read_loop, ih]

/-- C1 (amended): `is_selected` returns false whenever the drag flag
`m_is_selecting` is false; the `active` flag does not gate it, so a mouse
release (which clears only `active`) does not by itself stop cells from
being reported as selected. -/
theorem is_selected_requires_selecting_flag (w : QonsoleWidget)
    (col line : Nat) (h : w.m_is_selecting = false) :
    is_selected w col line = false := by
  simp [is_selected, h]

/-- Witness for C1's amended theorem at the freshly constructed widget. -/
theorem is_selected_requires_selecting_flag_witness :
    w0.m_is_selecting = false ∧ is_selected w0 3 0 = false :=
  ⟨rfl, is_selected_requires_selecting_flag w0 3 0 rfl⟩

/-- C1 counterexample: after a drag (press at cell (2,0), move to cell
(5,0)) ends with a mouse release, `active` is false yet cell (3,0) is
still reported as selected — the claim "active=false means is_selected
always returns false" fails on the code. -/
theorem released_cell_still_selected :
    (mouseReleaseEvent (mouseMoveEvent 40 0 (mousePressEvent 16 0 w0))).m_selection.active
      = false
    ∧ is_selected (mouseReleaseEvent (mouseMoveEvent 40 0 (mousePressEvent 16 0 w0))) 3 0
      = true := by
  constructor
  · rfl
  · decide

/-- C2 (amended): a mouse release clears the `active` flag that gates
`get_selected_text`, so extraction returns the empty string after the
release; only the visual `m_is_selecting` flag survives the release. -/
theorem get_selected_text_after_release_empty (w : QonsoleWidget)
    (text : List Char) :
    get_selected_text (mouseReleaseEvent w).m_selection text = []
    ∧ (mouseReleaseEvent w).m_is_selecting = w.m_is_selecting := by
  constructor
  · simp [get_selected_text, mouseReleaseEvent]
  · rfl

/-- C2 counterexample: the drag press(2,0)-move(5,0) over dump "abcdef"
extracts "cde" while active, but after the mouse release extraction
returns the empty string, refuting "extraction still works after mouse
release". -/
theorem extraction_empty_after_release_example :
    get_selected_text (mouseMoveEvent 40 0 (mousePressEvent 16 0 w0)).m_selection
        "abcdef".data = "cde".data
    ∧ get_selected_text
        (mouseReleaseEvent (mouseMoveEvent 40 0 (mousePressEvent 16 0 w0))).m_selection
        "abcdef".data = [] := by
  constructor <;> decide

/-- C9 (amended): a primary press activates the selection with its start
endpoint at the pressed cell, while the end endpoint is the `(0,0)`
written by the preceding reset — not the pressed cell — so the stored
range is zero-length only for presses inside the origin cell. -/
theorem mouse_press_anchors_start_only (w : QonsoleWidget) (x y : Int) :
    (mousePressEvent x y w).m_selection.active = true
    ∧ (mousePressEvent x y w).m_selection.start_column = (px2pos w x y).1
    ∧ (mousePressEvent x y w).m_selection.start_line = (px2pos w x y).2
    ∧ (mousePressEvent x y w).m_selection.end_column = 0
    ∧ (mousePressEvent x y w).m_selection.end_line = 0
    ∧ (mousePressEvent x y w).m_is_selecting = false :=
  ⟨rfl, rfl, rfl, rfl, rfl, rfl⟩

/-- C9 counterexample: pressing at pixel (24,32) — cell (3,2) with the
8x16 metrics — stores start (3,2) but end (0,0), so the stored range is
not zero-length at the pressed coordinate. -/
theorem press_range_not_zero_length :
    (mousePressEvent 24 32 w0).m_selection.start_column = 3
    ∧ (mousePressEvent 24 32 w0).m_selection.start_line = 2
    ∧ (mousePressEvent 24 32 w0).m_selection.end_column = 0
    ∧ (mousePressEvent 24 32 w0).m_selection.end_line = 0
    ∧ ¬((mousePressEvent 24 32 w0).m_selection.end_column =
          (mousePressEvent 24 32 w0).m_selection.start_column
        ∧ (mousePressEvent 24 32 w0).m_selection.end_line =
          (mousePressEvent 24 32 w0).m_selection.start_line) := by
  decide

/-- C10: the `__running` flag starts false and no statement in the class
ever assigns true, so after any number of `run()` invocations
`is_running()` still reports false, the already-running guard can never
fire, and the Windows `while (__running)` read loops perform zero
iterations and emit nothing. -/
theorem reader_running_flag_never_true (n : Nat) (isSock : Bool)
    (sreads : List WinSockRead) (freads : List WinFileRead) :
    runs_flag n = false
    ∧ is_running (runs_flag n) = false
    ∧ reader_run_win (runs_flag n) isSock sreads freads = (false, []) := by
  have hflag : runs_flag n = false := by
    induction n with
    | zero => rfl
    | succ k ih => simp [runs_flag, run_flag_after, ih]
  refine ⟨hflag, by simp [is_running, hflag], ?_⟩
  rw [hflag]
  unfold reader_run_win
  simp [win_socket_loop_not_running, win_handle_loop_not_running]

/-- C6: once the Unix read loop hits a zero-length read (end of file) or
an erroring read, it terminates: the results that would have followed are
never read, no further chunk is emitted, there is no retry, and the
reader's `__running` flag ends false (`is_running()` reports
not-running). -/
theorem reader_stops_at_eof_or_error (pre post : List ReadResult)
    (r : ReadResult) (hr : r = ReadResult.eof ∨ r = ReadResult.err) :
    reader_run_unix false (pre ++ r :: post) = reader_run_unix false (pre ++ [r])
    ∧ (reader_run_unix false (pre ++ r :: post)).1 = false := by
  unfold reader_run_unix
  simp [unix_read_loop_stops pre post r hr]

/-- Witness for C6: one data chunk, then end of file, then a chunk that is
never delivered. -/
theorem reader_stops_at_eof_or_error_witness :
    reader_run_unix false
        ([ReadResult.chunk [104, 105]] ++ ReadResult.eof :: [ReadResult.chunk [1]])
      = reader_run_unix false ([ReadResult.chunk [104, 105]] ++ [ReadResult.eof])
    ∧ (reader_run_unix false
        ([ReadResult.chunk [104, 105]] ++ ReadResult.eof :: [ReadResult.chunk [1]])).1
      = false :=
  reader_stops_at_eof_or_error [ReadResult.chunk [104, 105]]
    [ReadResult.chunk [1]] ReadResult.eof (Or.inl rfl)

/-- Clamping the two column indices before sorting them (as the code does)
slices the same segment as sorting before clamping (as the spec words
it). -/
theorem single_row_slice (line : List Char) (a b : Nat) :
    (if min b line.length < min a line.length
     then (line.drop (min b line.length)).take (min a line.length - min b line.length)
     else (line.drop (min a line.length)).take (min b line.length - min a line.length))
    = (line.drop (min (if b < a then b else a) line.length)).take
        (min (if b < a then a else b) line.length -
          min (if b < a then b else a) line.length) := by
  by_cases hm : min b line.length < min a line.length
  · by_cases hab : b < a
    · rw [if_pos hm, if_pos hab, if_pos hab]
    · exfalso; omega
  · by_cases hab : b < a
    · have heq : min a line.length = min b line.length := by omega
      rw [if_neg hm, if_pos hab, if_pos hab, heq]
    · rw [if_neg hm, if_neg hab, if_neg hab]

/-- C3: with the selection active and both its rows inside the
newline-split dump, the extraction routine of the code agrees with the
spec's description `extract_spec` (single-row column slice with swap,
multi-row first-remainder / interior-verbatim / last-prefix, all column
indices clamped to their row's length). -/
theorem get_selected_text_matches_extract_spec (sel : q_selection)
    (text : List Char) (ha : sel.active = true)
    (h1 : sel.start_line < (split_nl text).length)
    (h2 : sel.end_line < (split_nl text).length) :
    get_selected_text sel text = extract_spec sel text := by
  unfold get_selected_text extract_spec
  rw [ha]
  simp only [Bool.not_true, Bool.false_eq_true, if_false]
  rw [if_neg (by omega :
    ¬(sel.start_line ≥ (split_nl text).length ∨
      sel.end_line ≥ (split_nl text).length))]
  by_cases he : sel.start_line = sel.end_line
  · rw [if_pos he, if_pos he]
    exact single_row_slice ((split_nl text).getD sel.start_line [])
      sel.start_column sel.end_column
  · rw [if_neg he, if_neg he]
    simp only [List.cons_append]

/-- Witness for C3 at the spec's own example: the single-row range
{row=0, startCol=2, endCol=5} over dump "abcdef" extracts "cde", and the
code routine agrees with the spec description there. -/
theorem get_selected_text_matches_extract_spec_witness :
    (⟨0, 2, 0, 5, true⟩ : q_selection).active = true
    ∧ get_selected_text ⟨0, 2, 0, 5, true⟩ "abcdef".data
        = extract_spec ⟨0, 2, 0, 5, true⟩ "abcdef".data
    ∧ get_selected_text ⟨0, 2, 0, 5, true⟩ "abcdef".data = "cde".data :=
  ⟨rfl,
   get_selected_text_matches_extract_spec ⟨0, 2, 0, 5, true⟩ "abcdef".data
     rfl (by decide) (by decide),
   by decide⟩

/-- C4: containment is symmetric in the selection endpoints, both at the
event level (press at P then drag to Q versus press at Q then drag to P)
and for the raw normalized range check on arbitrary cell endpoints. -/
theorem selection_containment_order_independent (w : QonsoleWidget)
    (px py qx qy : Int) (col line a b c d : Nat) :
    is_selected (mouseMoveEvent qx qy (mousePressEvent px py w)) col line
      = is_selected (mouseMoveEvent px py (mousePressEvent qx qy w)) col line
    ∧ sel_contains a b c d col line = sel_contains c d a b col line := by
  constructor
  · rw [press_then_move w px py qx qy, press_then_move w qx qy px py]
    exact sel_contains_comm _ _ _ _ col line
  · exact sel_contains_comm a b c d col line

/-- C5 counterexample: the requested width 2^31 is at least 1, yet
`set_vt_size` followed by `get_terminal_size` reports 1, because the
`uint` argument wraps to the negative `int` -2^31 and is clamped — the
round-trip claimed for every size with both dimensions at least 1
fails. -/
theorem set_vt_size_wrap_counterexample :
    (1 ≤ (2147483648 : Nat) ∧ 1 ≤ (24 : Nat))
    ∧ get_terminal_size (set_vt_size 2147483648 24 w0).1 = (1, 24)
    ∧ ((1 : Int), (24 : Int)) ≠ ((2147483648 : Int), (24 : Int)) := by
  refine ⟨by decide, by decide, by decide⟩

/-- C5 (amended): for requested sizes whose dimensions fit the positive
range of the `int` members (1 ≤ v < 2^31), `set_vt_size` followed by
`get_terminal_size` returns exactly the request; in every case — clamping
of 0, and of the values ≥ 2^31 whose `int` conversion is non-positive,
included — the stored grid size is at least 1 in both dimensions. -/
theorem set_vt_size_roundtrip_clamped (w : QonsoleWidget) (c r : Nat) :
    (1 ≤ c → c < 2147483648 → 1 ≤ r → r < 2147483648 →
      get_terminal_size (set_vt_size c r w).1 = ((c : Int), (r : Int)))
    ∧ 1 ≤ (set_vt_size c r w).1.m_cols
    ∧ 1 ≤ (set_vt_size c r w).1.m_lines := by
  have hsmall : ∀ m : Nat, m < 2147483648 → toInt32 m = (m : Int) := by
    intro m hm
    unfold toInt32
    rw [Nat.mod_eq_of_lt (by omega), if_pos (by omega)]
  refine ⟨?_, ?_, ?_⟩
  · intro h1c h2c h1r h2r
    simp only [set_vt_size, resize_vt, get_terminal_size]
    rw [hsmall c h2c, hsmall r h2r]
    rw [if_neg (by omega : ¬((c : Int) < 1)), if_neg (by omega : ¬((r : Int) < 1))]
  · simp only [set_vt_size, resize_vt]
    split_ifs <;> omega
  · simp only [set_vt_size, resize_vt]
    split_ifs <;> omega

/-- Witness for C5's amended theorem at the request (5, 7). -/
theorem set_vt_size_roundtrip_clamped_witness :
    get_terminal_size (set_vt_size 5 7 w0).1 = ((5 : Int), (7 : Int))
    ∧ 1 ≤ (set_vt_size 5 7 w0).1.m_cols :=
  ⟨(set_vt_size_roundtrip_clamped w0 5 7).1 (by decide) (by decide)
      (by decide) (by decide),
   (set_vt_size_roundtrip_clamped w0 5 7).2.1⟩

/-- C7: the guards do make every feed and resize a no-op on the engine and
make painting stop after the background fill whenever the engine members
are null — but a failed engine construction does not establish that
state: the early return after a negative `tsm_screen_new` leaves both
`m_screen` and `m_vte` never assigned (the members carry no initializer),
and the `tsm_vte_new` failure path nulls only `m_screen`; `uninit` is not
`null`. -/
theorem engine_failure_skips_engine_and_drawing (w : QonsoleWidget)
    (data : List Nat) (cur : q_cursor_pos) (focus : Bool) :
    ctor_engine_members (-12) 0 = (MemberState.uninit, MemberState.uninit)
    ∧ ctor_engine_members 0 (-12) = (MemberState.null, MemberState.uninit)
    ∧ MemberState.uninit ≠ MemberState.null
    ∧ on_data_ready data cur { w with m_screen := none, m_vte := none }
        = ({ w with m_screen := none, m_vte := none }, [])
    ∧ (resize_vt { w with m_screen := none, m_vte := none }).2.1 = []
    ∧ (paintEvent { w with m_screen := none, m_vte := none } focus).1
        = [PaintOp.fill_background w.m_default_bg]
    ∧ (paintEvent { w with m_screen := none, m_vte := none } focus).2 = [] := by
  refine ⟨by decide, by decide, by decide, rfl, rfl, rfl, rfl⟩

/-- C8: a foreground or background palette index outside 0..15 resolves to
the configured default foreground or background respectively (the palette
array itself is consulted only under the `0 <= code < 16` guard, so no
out-of-bounds access can occur). -/
theorem palette_oob_resolves_default (w : QonsoleWidget) (fc bc : Int)
    (hf : fc < 0 ∨ 16 ≤ fc) (hb : bc < 0 ∨ 16 ≤ bc) :
    resolve_fg w fc = w.m_default_fg ∧ resolve_bg w bc = w.m_default_bg := by
  constructor
  · unfold resolve_fg
    rw [dif_neg (by omega : ¬(0 ≤ fc ∧ fc < 16))]
  · unfold resolve_bg
    rw [dif_neg (by omega : ¬(0 ≤ bc ∧ bc < 16))]

/-- Witness for C8 at the spec's own out-of-range examples 16 and -1. -/
theorem palette_oob_resolves_default_witness :
    resolve_fg w0 16 = w0.m_default_fg ∧ resolve_bg w0 (-1) = w0.m_default_bg :=
  palette_oob_resolves_default w0 16 (-1) (Or.inr (by decide)) (Or.inl (by decide))
